import Mathlib

/-!
Shallow embedding of the `CreditAnalyticsEngine` of the credit-risk-assessment
repository (TypeScript).  Numeric record fields are modelled as exact rationals;
the one place where the source can divide by zero and produce an IEEE-754
non-finite value (`Infinity`/`NaN`) is modelled by the explicit `JsVal` domain,
so that the unguarded divisions of the source keep their JavaScript semantics.
`Math.round` is modelled by `round` (both round half towards positive infinity
on the values arising here).
-/

namespace CreditRisk

/-- The `Customer` entity: the engine reads the non-derived fields and writes
`riskScore`, `riskCategory` and `segment`.  All numeric fields are `number`
in the source and are modelled as `ℚ`. -/
structure Customer where
  id : String
  name : String
  age : ℚ
  income : ℚ
  creditScore : ℚ
  accountBalance : ℚ
  transactionCount : ℚ
  avgTransactionAmount : ℚ
  riskScore : ℚ
  riskCategory : String
  segment : String
  city : String
  state : String
  joinDate : String
  lastTransactionDate : String
  fraudAlerts : ℚ
  paymentHistory : ℚ
  utilizationRate : ℚ
  accountAge : ℚ
deriving DecidableEq, Repr

/-- JavaScript `number` results of an arithmetic expression whose inputs are
finite: either a finite value, one of the two infinities, or `NaN`.
(The sign of zero is not tracked: the divisors reaching zero in this code are
products of non-negative values, i.e. `+0`.) -/
inductive JsVal where
  | fin (q : ℚ)
  | posInf
  | negInf
  | nan
deriving DecidableEq, Repr

namespace JsVal

/-- JavaScript addition. -/
def add : JsVal → JsVal → JsVal
  | nan, _ => nan
  | _, nan => nan
  | posInf, negInf => nan
  | negInf, posInf => nan
  | posInf, _ => posInf
  | _, posInf => posInf
  | negInf, _ => negInf
  | _, negInf => negInf
  | fin a, fin b => fin (a + b)

/-- JavaScript multiplication (`0 * Infinity = NaN`). -/
def mul : JsVal → JsVal → JsVal
  | nan, _ => nan
  | _, nan => nan
  | fin a, fin b => fin (a * b)
  | fin a, posInf => if a = 0 then nan else if 0 < a then posInf else negInf
  | fin a, negInf => if a = 0 then nan else if 0 < a then negInf else posInf
  | posInf, fin b => if b = 0 then nan else if 0 < b then posInf else negInf
  | negInf, fin b => if b = 0 then nan else if 0 < b then negInf else posInf
  | posInf, posInf => posInf
  | posInf, negInf => negInf
  | negInf, posInf => negInf
  | negInf, negInf => posInf

/-- JavaScript division (`x / 0` is `±Infinity` for `x ≠ 0` and `NaN` for
`x = 0`; the zero divisor is `+0` here, see `JsVal`). -/
def div : JsVal → JsVal → JsVal
  | nan, _ => nan
  | _, nan => nan
  | posInf, posInf => nan
  | posInf, negInf => nan
  | negInf, posInf => nan
  | negInf, negInf => nan
  | posInf, fin b => if 0 ≤ b then posInf else negInf
  | negInf, fin b => if 0 ≤ b then negInf else posInf
  | fin _, posInf => fin 0
  | fin _, negInf => fin 0
  | fin a, fin b =>
      if b = 0 then (if a = 0 then nan else if 0 < a then posInf else negInf)
      else fin (a / b)

/-- JavaScript `Math.abs`. -/
def abs : JsVal → JsVal
  | nan => nan
  | posInf => posInf
  | negInf => posInf
  | fin a => fin |a|

/-- JavaScript `Math.min` (any `NaN` argument yields `NaN`). -/
def min : JsVal → JsVal → JsVal
  | nan, _ => nan
  | _, nan => nan
  | negInf, _ => negInf
  | _, negInf => negInf
  | posInf, b => b
  | a, posInf => a
  | fin a, fin b => fin (Min.min a b)

/-- JavaScript `>` (false whenever an operand is `NaN`). -/
def gt : JsVal → JsVal → Bool
  | nan, _ => false
  | _, nan => false
  | posInf, posInf => false
  | posInf, _ => true
  | _, posInf => false
  | negInf, _ => false
  | fin _, negInf => true
  | fin a, fin b => decide (b < a)

/-- Whether the value is a finite number (not `±Infinity`, not `NaN`). -/
def isFinite : JsVal → Bool
  | fin _ => true
  | _ => false

end JsVal

/-- The transient `RiskFactors` structure built by `calculateRiskScore`.
`transactionPattern` is the one field produced by an unguarded division
(`transactionCount / accountAge`), hence a `JsVal`. -/
structure RiskFactors where
  creditScore : ℚ
  income : ℚ
  paymentHistory : ℚ
  utilizationRate : ℚ
  accountAge : ℚ
  fraudAlerts : ℚ
  transactionPattern : JsVal
  avgTransactionAmount : ℚ
deriving DecidableEq, Repr

/-- The `RiskFactors` record built at the top of `calculateRiskScore`. -/
def mkRiskFactors (customer : Customer) : RiskFactors :=
  { creditScore := customer.creditScore
    income := customer.income
    paymentHistory := customer.paymentHistory
    utilizationRate := customer.utilizationRate
    accountAge := customer.accountAge
    fraudAlerts := customer.fraudAlerts
    transactionPattern :=
      JsVal.div (JsVal.fin customer.transactionCount) (JsVal.fin customer.accountAge)
    avgTransactionAmount := customer.avgTransactionAmount }

/-- `computeWeightedRiskScore`: the weighted six-factor score, clamped to 100
and rounded.  (The source never reads `factors.transactionPattern` or
`factors.avgTransactionAmount` here.) -/
def computeWeightedRiskScore (factors : RiskFactors) : ℤ :=
  let creditScoreNormalized := max 0 ((850 - factors.creditScore) / 450)
  let paymentHistoryRisk := max 0 ((100 - factors.paymentHistory) / 100)
  let utilizationRisk :=
    if factors.utilizationRate > 30 then (factors.utilizationRate - 30) / 70 else 0
  let incomeRisk := max 0 ((500000 - factors.income) / 500000)
  let accountAgeRisk := max 0 ((60 - factors.accountAge) / 60)
  let fraudRisk := min 1 (factors.fraudAlerts / 5)
  let score := creditScoreNormalized * 35 + paymentHistoryRisk * 35 +
    utilizationRisk * 15 + incomeRisk * 10 + accountAgeRisk * 3 + fraudRisk * 2
  min 100 (round score)

/-- `calculateRiskScore`. -/
def calculateRiskScore (customer : Customer) : ℤ :=
  computeWeightedRiskScore (mkRiskFactors customer)

/-- The risk-category conditional of `processNewCustomerData`
(`riskScore < 30 ? 'Low' : riskScore < 70 ? 'Medium' : 'High'`). -/
def riskCategoryOf (score : ℚ) : String :=
  if score < 30 then "Low" else if score < 70 then "Medium" else "High"

/-- `assignCustomerSegment` (reads the already-stored `riskScore`). -/
def assignCustomerSegment (customer : Customer) : String :=
  if customer.income > 600000 ∧ customer.riskScore < 40 then "Premium"
  else if customer.income > 400000 ∧ customer.riskScore < 60 then "Gold"
  else if customer.income > 250000 ∧ customer.riskScore < 80 then "Silver"
  else "Basic"

/-- The per-record body of `processNewCustomerData`: the three sequential
field assignments (`riskScore`, then `riskCategory`, then `segment`, the
later ones reading the earlier updates). -/
def processCustomer (customer : Customer) : Customer :=
  let c1 := { customer with riskScore := (calculateRiskScore customer : ℚ) }
  let c2 := { c1 with riskCategory := riskCategoryOf c1.riskScore }
  { c2 with segment := assignCustomerSegment c2 }

/-- `processNewCustomerData`. -/
def processNewCustomerData (rawCustomers : List Customer) : List Customer :=
  rawCustomers.map processCustomer

/-- `calculateAverage`, applied to the already-projected numeric field values
(all the fields the engine averages are numeric, so the `typeof` guard of the
source never substitutes 0).  The engine only calls it on non-empty lists. -/
def calculateAverage (values : List ℚ) : ℤ :=
  round (values.sum / (values.length : ℚ))

/-- Criterion of the `Premium` cluster in `clusterCustomers`. -/
def premiumCriteria (c : Customer) : Prop := c.income > 600000 ∧ c.riskScore < 40

/-- Criterion of the `Gold` cluster in `clusterCustomers`. -/
def goldCriteria (c : Customer) : Prop := c.income > 400000 ∧ c.riskScore < 60

/-- Criterion of the `Silver` cluster in `clusterCustomers`. -/
def silverCriteria (c : Customer) : Prop := c.income > 250000 ∧ c.riskScore < 80

instance : DecidablePred premiumCriteria := fun _ => instDecidableAnd
instance : DecidablePred goldCriteria := fun _ => instDecidableAnd
instance : DecidablePred silverCriteria := fun _ => instDecidableAnd

/-- `clusterCustomers`: each customer is pushed into the first of the four
fixed buckets whose criterion it satisfies (`Basic`'s criterion is `true`),
and empty buckets are dropped.  The first-match loop is rendered as one
filter per bucket, negating the earlier criteria; members keep input order. -/
def clusterCustomers (customers : List Customer) : List (String × List Customer) :=
  let premium := customers.filter fun c => decide (premiumCriteria c)
  let gold := customers.filter fun c => decide (¬premiumCriteria c ∧ goldCriteria c)
  let silver := customers.filter fun c =>
    decide (¬premiumCriteria c ∧ ¬goldCriteria c ∧ silverCriteria c)
  let basic := customers.filter fun c =>
    decide (¬premiumCriteria c ∧ ¬goldCriteria c ∧ ¬silverCriteria c)
  [("Premium", premium), ("Gold", gold), ("Silver", silver), ("Basic", basic)].filter
    fun s => decide (0 < s.2.length)

/-- Aggregate per-segment view produced by `performSegmentAnalysis`. -/
structure SegmentAnalysis where
  segment : String
  customers : ℕ
  avgIncome : ℤ
  avgRiskScore : ℤ
  revenue : ℚ
  growthRate : ℤ
  percentage : ℚ
deriving DecidableEq, Repr

/-- `calculateGrowthRate`.  The wall-clock comparison
`new Date(c.joinDate) > sixMonthsAgo` is the engine's one external dependency
and is passed in as the predicate `isRecent` on the join date. -/
def calculateGrowthRate (isRecent : String → Bool) (customers : List Customer) : ℤ :=
  let recentCustomers := (customers.filter fun c => isRecent c.joinDate).length
  let totalCustomers := customers.length
  let oldCustomers := totalCustomers - recentCustomers
  if oldCustomers = 0 then 100
  else round ((recentCustomers : ℚ) / (oldCustomers : ℚ) * 100)

/-- `performSegmentAnalysis`. -/
def performSegmentAnalysis (isRecent : String → Bool) (customers : List Customer) :
    List SegmentAnalysis :=
  (clusterCustomers customers).map fun s =>
    { segment := s.1
      customers := s.2.length
      avgIncome := calculateAverage (s.2.map (·.income))
      avgRiskScore := calculateAverage (s.2.map (·.riskScore))
      revenue := (s.2.map fun c => c.income * 0.15).sum
      growthRate := calculateGrowthRate isRecent s.2
      percentage := (s.2.length : ℚ) / (customers.length : ℚ) }

/-- `calculateAnomalyScore`: the three per-metric deviations divide by half
the (rounded) population mean with no zero guard, so the quotients live in
`JsVal` and a zero mean yields `Infinity` or `NaN` exactly as in JavaScript. -/
def calculateAnomalyScore (customer : Customer) (allCustomers : List Customer) : JsVal :=
  let avgIncome := (calculateAverage (allCustomers.map (·.income)) : ℚ)
  let avgTransactionAmount :=
    (calculateAverage (allCustomers.map (·.avgTransactionAmount)) : ℚ)
  let avgTransactionCount :=
    (calculateAverage (allCustomers.map (·.transactionCount)) : ℚ)
  let incomeZScore := JsVal.abs (JsVal.div (JsVal.fin (customer.income - avgIncome))
    (JsVal.fin (avgIncome * 0.5)))
  let transactionAmountZScore := JsVal.abs (JsVal.div
    (JsVal.fin (customer.avgTransactionAmount - avgTransactionAmount))
    (JsVal.fin (avgTransactionAmount * 0.5)))
  let transactionCountZScore := JsVal.abs (JsVal.div
    (JsVal.fin (customer.transactionCount - avgTransactionCount))
    (JsVal.fin (avgTransactionCount * 0.5)))
  let anomalyScore := JsVal.div
    (JsVal.add (JsVal.add (JsVal.mul incomeZScore (JsVal.fin 0.3))
      (JsVal.mul transactionAmountZScore (JsVal.fin 0.4)))
      (JsVal.mul transactionCountZScore (JsVal.fin 0.3)))
    (JsVal.fin 3)
  JsVal.min (JsVal.fin 1) anomalyScore

/-- `detectFraudPatterns`: customers whose anomaly score exceeds 0.7
(a `NaN` score fails the JavaScript `>` test). -/
def detectFraudPatterns (customers : List Customer) : List Customer :=
  customers.filter fun customer =>
    JsVal.gt (calculateAnomalyScore customer customers) (JsVal.fin 0.7)

/-- Modelled from the spec: the guarded anomaly score of section 4.5, which the
source's `calculateAnomalyScore` is missing — "if mean is 0, treat the
deviation term as 0 to avoid NaN/infinity propagation". -/
def specAnomalyScore (customer : Customer) (allCustomers : List Customer) : ℚ :=
  let avgIncome := (calculateAverage (allCustomers.map (·.income)) : ℚ)
  let avgTransactionAmount :=
    (calculateAverage (allCustomers.map (·.avgTransactionAmount)) : ℚ)
  let avgTransactionCount :=
    (calculateAverage (allCustomers.map (·.transactionCount)) : ℚ)
  let incomeDev := if avgIncome = 0 then 0
    else |customer.income - avgIncome| / (avgIncome * 0.5)
  let amountDev := if avgTransactionAmount = 0 then 0
    else |customer.avgTransactionAmount - avgTransactionAmount| / (avgTransactionAmount * 0.5)
  let countDev := if avgTransactionCount = 0 then 0
    else |customer.transactionCount - avgTransactionCount| / (avgTransactionCount * 0.5)
  min 1 ((incomeDev * 0.3 + amountDev * 0.4 + countDev * 0.3) / 3)

/-- Modelled from the spec: fraud-suspect detection built on the guarded
anomaly score of section 4.5. -/
def specDetectFraudSuspects (customers : List Customer) : List Customer :=
  customers.filter fun customer => decide (specAnomalyScore customer customers > 0.7)

/-- A rule-based recommendation. -/
structure Recommendation where
  type : String
  priority : String
  message : String
deriving DecidableEq, Repr

/-- JavaScript `Number.prototype.toFixed(1)` for the non-negative values
formatted here (round half up to one decimal digit). -/
def toFixed1 (q : ℚ) : String :=
  let n := round (q * 10)
  toString (n / 10) ++ "." ++ toString (n % 10)

/-- Count of customers whose stored `riskCategory` is `High`. -/
def highRiskCount (customers : List Customer) : ℕ :=
  (customers.filter fun c => c.riskCategory == "High").length

/-- The message of the rule-1 recommendation, with the high-risk percentage
embedded via `toFixed(1)`. -/
def riskManagementMessage (cnt total : ℕ) : String :=
  toString cnt ++ " customers (" ++ toFixed1 ((cnt : ℚ) / (total : ℚ) * 100) ++
    "%) are high-risk. Implement stricter monitoring."

/-- `generateRecommendations`: the three independent rules, in source order. -/
def generateRecommendations (customers : List Customer)
    (segments : List SegmentAnalysis) : List Recommendation :=
  let cnt := highRiskCount customers
  let premiumSegment := segments.find? fun s => s.segment == "Premium"
  let lowUtilizationCustomers :=
    (customers.filter fun c => decide (c.utilizationRate < 20)).length
  let r1 : List Recommendation :=
    if (cnt : ℚ) > (customers.length : ℚ) * 0.15 then
      [{ type := "risk_management", priority := "critical",
         message := riskManagementMessage cnt customers.length }]
    else []
  let r2 : List Recommendation :=
    match premiumSegment with
    | some s =>
        if s.growthRate > 15 then
          [{ type := "growth_opportunity", priority := "high",
             message := "Premium segment shows " ++ toString s.growthRate ++
               "% growth. Increase acquisition budget by 25%." }]
        else []
    | none => []
  let r3 : List Recommendation :=
    if (lowUtilizationCustomers : ℚ) > (customers.length : ℚ) * 0.3 then
      [{ type := "engagement", priority := "medium",
         message := toString lowUtilizationCustomers ++
           " customers have low utilization. Launch engagement campaigns." }]
    else []
  r1 ++ r2 ++ r3

/-- Monthly cohort produced by `calculateMonthlyTrends`. -/
structure MonthlyTrend where
  month : String
  newCustomers : ℕ
  totalRevenue : ℚ
  avgRiskScore : ℤ
deriving DecidableEq, Repr

/-- Stable insertion of a trend into a month-sorted list (equal keys keep
their relative order, as JavaScript's stable `sort` does). -/
def insertByMonth (t : MonthlyTrend) : List MonthlyTrend → List MonthlyTrend
  | [] => [t]
  | h :: rest => if t.month < h.month then t :: h :: rest else h :: insertByMonth t rest

/-- Ascending stable sort by month key (`localeCompare` on `YYYY-MM` keys is
plain lexicographic order). -/
def sortByMonth (l : List MonthlyTrend) : List MonthlyTrend :=
  l.foldl (fun acc t => insertByMonth t acc) []

/-- `calculateMonthlyTrends`.  `new Date(c.joinDate).toISOString().slice(0,7)`
is an external date-library call, passed in as `monthKey`; the insertion-order
`Map` is an association list. -/
def calculateMonthlyTrends (monthKey : String → String) (customers : List Customer) :
    List MonthlyTrend :=
  let monthlyData := customers.foldl (fun acc customer =>
    let month := monthKey customer.joinDate
    if acc.any fun e => e.1 == month then
      acc.map fun e =>
        if e.1 == month then
          (e.1, e.2.1 + 1, e.2.2.1 + customer.income * 0.15, e.2.2.2 + customer.riskScore)
        else e
    else acc ++ [(month, 1, customer.income * 0.15, customer.riskScore)])
    ([] : List (String × ℕ × ℚ × ℚ))
  sortByMonth (monthlyData.map fun e =>
    { month := e.1
      newCustomers := e.2.1
      totalRevenue := e.2.2.1
      avgRiskScore := round (e.2.2.2 / (e.2.1 : ℚ)) })

/-! ### Concrete records used to evaluate the engine -/

/-- A customer built from the ingestion defaults of the repository. -/
def baseCustomer : Customer :=
  { id := "CUST-0001", name := "Customer 1", age := 30, income := 300000,
    creditScore := 650, accountBalance := 50000, transactionCount := 25,
    avgTransactionAmount := 5000, riskScore := 0, riskCategory := "Low",
    segment := "", city := "Mumbai", state := "Maharashtra",
    joinDate := "2024-01-01", lastTransactionDate := "2024-06-01",
    fraudAlerts := 0, paymentHistory := 85, utilizationRate := 45,
    accountAge := 24 }

/-- The extreme record of the spec's first testable property:
`creditScore = 0`, `income = 0`, `utilizationRate = 100`,
`fraudAlerts = 1000` (with the remaining inputs at their worst as well). -/
def extremeCustomer : Customer :=
  { baseCustomer with
    creditScore := 0
    income := 0
    utilizationRate := 100
    fraudAlerts := 1000
    paymentHistory := 0
    accountAge := 0 }

/-- A customer whose `accountAge` is zero, exercising the unguarded
`transactionCount / accountAge` division. -/
def zeroAgeCustomer : Customer :=
  { baseCustomer with accountAge := 0, transactionCount := 10 }

/-- Customer with income `0.4` in a two-customer population whose rounded
mean income is `0`: the unguarded anomaly division hits a zero divisor. -/
def fraudWitnessA : Customer :=
  { baseCustomer with
    id := "A"
    income := 2 / 5
    avgTransactionAmount := 100
    transactionCount := 10 }

/-- Second customer of the zero-mean-income fraud population. -/
def fraudWitnessB : Customer :=
  { baseCustomer with
    id := "B"
    income := 0
    avgTransactionAmount := 100
    transactionCount := 10 }

/-- A record already carrying the `High` risk category. -/
def highCatCustomer : Customer := { baseCustomer with riskCategory := "High" }

/-- A 100-customer population with exactly 16 `High`-risk members. -/
def population100 : List Customer :=
  List.replicate 16 highCatCustomer ++ List.replicate 84 baseCustomer

/-- The spec's precedence example: income 700000, risk score 35. -/
def premiumExampleCustomer : Customer :=
  { baseCustomer with income := 700000, riskScore := 35 }

/-! ### Helper lemmas -/

/-- The weighted score is non-negative and at most 100 whenever the fraud-alert
count is non-negative (every other term is clamped below by `max 0` or by the
utilization conditional, and the final `min 100` caps the top). -/
lemma computeWeightedRiskScore_bounds (factors : RiskFactors)
    (hf : 0 ≤ factors.fraudAlerts) :
    0 ≤ computeWeightedRiskScore factors ∧ computeWeightedRiskScore factors ≤ 100 := by
  unfold computeWeightedRiskScore
  refine ⟨le_min (by norm_num) ?_, min_le_left _ _⟩
  have h1 : (0 : ℚ) ≤ max 0 ((850 - factors.creditScore) / 450) := le_max_left _ _
  have h2 : (0 : ℚ) ≤ max 0 ((100 - factors.paymentHistory) / 100) := le_max_left _ _
  have h3 : (0 : ℚ) ≤
      (if factors.utilizationRate > 30 then (factors.utilizationRate - 30) / 70 else 0) := by
    split
    · next h => exact div_nonneg (by linarith) (by norm_num)
    · exact le_refl 0
  have h4 : (0 : ℚ) ≤ max 0 ((500000 - factors.income) / 500000) := le_max_left _ _
  have h5 : (0 : ℚ) ≤ max 0 ((60 - factors.accountAge) / 60) := le_max_left _ _
  have h6 : (0 : ℚ) ≤ min 1 (factors.fraudAlerts / 5) :=
    le_min (by norm_num) (by positivity)
  rw [round_eq]
  exact Int.floor_nonneg.mpr (by nlinarith)

/-- Bounds of `calculateRiskScore`, shared by the theorems below. -/
lemma calculateRiskScore_bounds (customer : Customer) (hf : 0 ≤ customer.fraudAlerts) :
    0 ≤ calculateRiskScore customer ∧ calculateRiskScore customer ≤ 100 :=
  computeWeightedRiskScore_bounds (mkRiskFactors customer) hf

/-! ### Claims -/

/-- C1: for every customer record with a non-negative fraud-alert count (a
count per the data model; all other numeric fields arbitrary finite rationals,
covering creditScore=0, income=0, utilizationRate=100, fraudAlerts=1000),
`calculateRiskScore` — the composition of `computeWeightedRiskScore` with the
factor extraction — returns an integer (the codomain is `ℤ`) in `[0, 100]`. -/
theorem calculateRiskScore_in_range (customer : Customer)
    (hf : 0 ≤ customer.fraudAlerts) :
    0 ≤ calculateRiskScore customer ∧ calculateRiskScore customer ≤ 100 :=
  calculateRiskScore_bounds customer hf

/-- Witness for C1 at the extreme record of the spec (creditScore=0, income=0,
utilizationRate=100, fraudAlerts=1000): the score is in `[0, 100]`. -/
theorem calculateRiskScore_in_range_witness :
    0 ≤ calculateRiskScore extremeCustomer ∧ calculateRiskScore extremeCustomer ≤ 100 :=
  calculateRiskScore_in_range extremeCustomer (by norm_num [extremeCustomer, baseCustomer])

/-- C2: the risk category is a pure function of the score with strict
boundaries: `score < 30 → Low`, `30 ≤ score < 70 → Medium`,
`score ≥ 70 → High`; in particular 29 ↦ Low, 30 ↦ Medium, 69 ↦ Medium,
70 ↦ High. -/
theorem riskCategory_boundaries :
    (∀ score : ℚ, score < 30 → riskCategoryOf score = "Low") ∧
    (∀ score : ℚ, 30 ≤ score → score < 70 → riskCategoryOf score = "Medium") ∧
    (∀ score : ℚ, 70 ≤ score → riskCategoryOf score = "High") ∧
    riskCategoryOf 29 = "Low" ∧ riskCategoryOf 30 = "Medium" ∧
    riskCategoryOf 69 = "Medium" ∧ riskCategoryOf 70 = "High" := by
  refine ⟨fun score h => ?_, fun score h30 h70 => ?_, fun score h => ?_,
    by norm_num [riskCategoryOf], by norm_num [riskCategoryOf],
    by norm_num [riskCategoryOf], by norm_num [riskCategoryOf]⟩
  · rw [riskCategoryOf, if_pos h]
  · rw [riskCategoryOf, if_neg (not_lt.mpr h30), if_pos h70]
  · rw [riskCategoryOf, if_neg (not_lt.mpr (by linarith)),
      if_neg (not_lt.mpr (by linarith))]

/-- Witness for C2: the boundary score 30 falls in `Medium`. -/
theorem riskCategory_boundaries_witness : riskCategoryOf 30 = "Medium" :=
  riskCategory_boundaries.2.1 30 (by norm_num) (by norm_num)

/-- C3: segment assignment is first-match: every customer satisfying the
`Premium` predicate (income > 600000 and riskScore < 40) is assigned
`Premium`, whatever the later predicates say; in particular income 700000
with risk score 35 (which also satisfies the Gold and Silver predicates)
yields `Premium`. -/
theorem segment_first_match_premium :
    (∀ customer : Customer, customer.income > 600000 → customer.riskScore < 40 →
      assignCustomerSegment customer = "Premium") ∧
    (∀ customer : Customer, customer.income = 700000 → customer.riskScore = 35 →
      assignCustomerSegment customer = "Premium") := by
  constructor
  · intro customer h1 h2
    rw [assignCustomerSegment, if_pos ⟨h1, h2⟩]
  · intro customer h1 h2
    rw [assignCustomerSegment, if_pos ⟨by rw [h1]; norm_num, by rw [h2]; norm_num⟩]

/-- Witness for C3 at the concrete record with income 700000 and risk
score 35. -/
theorem segment_first_match_premium_witness :
    assignCustomerSegment premiumExampleCustomer = "Premium" :=
  segment_first_match_premium.2 premiumExampleCustomer rfl rfl

/-- The `risk_management` entries of `generateRecommendations` are exactly the
rule-1 output: one critical recommendation when the high-risk count strictly
exceeds 15% of the population, nothing otherwise (rules 2 and 3 emit other
types). -/
lemma filter_riskManagement_eq (customers : List Customer)
    (segments : List SegmentAnalysis) :
    (generateRecommendations customers segments).filter
        (fun r => r.type == "risk_management") =
      if (highRiskCount customers : ℚ) > (customers.length : ℚ) * 0.15 then
        [{ type := "risk_management", priority := "critical",
           message := riskManagementMessage (highRiskCount customers)
             customers.length }]
      else [] := by
  unfold generateRecommendations
  rw [List.filter_append, List.filter_append]
  split <;> split <;> try split
  all_goals simp [List.filter]

/-- C4: the first recommendation rule fires on a strict threshold: the
critical `risk_management` recommendation (with the computed percentage
embedded in the message via `riskManagementMessage`) is emitted exactly when
the high-risk count strictly exceeds 15% of the population; for a population
of 100 it fires exactly when at least 16 customers are high-risk (so not at
exactly 15). -/
theorem riskManagement_rule_strict_threshold :
    (∀ (customers : List Customer) (segments : List SegmentAnalysis),
        (generateRecommendations customers segments).filter
            (fun r => r.type == "risk_management") =
          if (highRiskCount customers : ℚ) > (customers.length : ℚ) * 0.15 then
            [{ type := "risk_management", priority := "critical",
               message := riskManagementMessage (highRiskCount customers)
                 customers.length }]
          else []) ∧
    (∀ (customers : List Customer) (segments : List SegmentAnalysis),
        customers.length = 100 →
        ((generateRecommendations customers segments).filter
            (fun r => r.type == "risk_management") ≠ [] ↔
          16 ≤ highRiskCount customers)) := by
  refine ⟨filter_riskManagement_eq, fun customers segments h100 => ?_⟩
  rw [filter_riskManagement_eq, h100]
  have hiff : ((highRiskCount customers : ℚ) > ((100 : ℕ) : ℚ) * 0.15) ↔
      16 ≤ highRiskCount customers := by
    rw [gt_iff_lt, show (((100 : ℕ) : ℚ)) * 0.15 = ((15 : ℕ) : ℚ) by norm_num,
      Nat.cast_lt]
    omega
  by_cases h16 : 16 ≤ highRiskCount customers
  · rw [if_pos (hiff.mpr h16)]
    simp [h16]
  · rw [if_neg (fun hc => h16 (hiff.mp hc))]
    simp [h16]

/-- Witness for C4: in the 100-customer population with exactly 16 high-risk
members, rule 1 fires. -/
theorem riskManagement_rule_strict_threshold_witness :
    (generateRecommendations population100 []).filter
        (fun r => r.type == "risk_management") ≠ [] :=
  (riskManagement_rule_strict_threshold.2 population100 []
    (by simp [population100])).mpr (by decide)

/-- C5: on the empty customer list every aggregate of sections 4.4-4.7
(segment analysis, fraud-suspect detection, recommendation generation over the
segments derived from the same empty list, monthly trends) returns the empty
list — no bucket statistics, anomaly quotient or percentage is ever computed,
so no division by zero occurs. -/
theorem aggregates_empty_input :
    (∀ isRecent : String → Bool, performSegmentAnalysis isRecent [] = []) ∧
    detectFraudPatterns [] = [] ∧
    (∀ isRecent : String → Bool,
      generateRecommendations [] (performSegmentAnalysis isRecent []) = []) ∧
    (∀ monthKey : String → String, calculateMonthlyTrends monthKey [] = []) := by
  have hrec : generateRecommendations [] [] = [] := by
    norm_num [generateRecommendations, highRiskCount]
  refine ⟨fun _ => rfl, rfl, fun isRecent => ?_, fun _ => rfl⟩
  rw [show performSegmentAnalysis isRecent [] = [] from rfl]
  exact hrec

/-- C6 (failing input): in the two-customer population `fraudWitnessA`
(income 0.4), `fraudWitnessB` (income 0) the rounded mean income is 0, and the
source's unguarded division `|income - mean| / (mean * 0.5)` makes customer A's
anomaly score `min(1, Infinity) = 1` — so A is returned as a fraud suspect —
while customer B's score is `NaN` (not in `[0, 1]`).  Under the spec's guard
(zero mean contributes 0, `specAnomalyScore`) A's score is 0 and nobody is
flagged: the code diverges from the claimed guarded behaviour. -/
theorem anomaly_zero_mean_unguarded :
    detectFraudPatterns [fraudWitnessA, fraudWitnessB] = [fraudWitnessA] ∧
    calculateAnomalyScore fraudWitnessA [fraudWitnessA, fraudWitnessB] = JsVal.fin 1 ∧
    calculateAnomalyScore fraudWitnessB [fraudWitnessA, fraudWitnessB] = JsVal.nan ∧
    specAnomalyScore fraudWitnessA [fraudWitnessA, fraudWitnessB] = 0 ∧
    specDetectFraudSuspects [fraudWitnessA, fraudWitnessB] = [] := by
  have hA : calculateAnomalyScore fraudWitnessA [fraudWitnessA, fraudWitnessB] =
      JsVal.fin 1 := by
    norm_num [calculateAnomalyScore, calculateAverage, fraudWitnessA, fraudWitnessB,
      baseCustomer, round_eq, JsVal.div, JsVal.abs, JsVal.add, JsVal.mul, JsVal.min]
  have hB : calculateAnomalyScore fraudWitnessB [fraudWitnessA, fraudWitnessB] =
      JsVal.nan := by
    norm_num [calculateAnomalyScore, calculateAverage, fraudWitnessA, fraudWitnessB,
      baseCustomer, round_eq, JsVal.div, JsVal.abs, JsVal.add, JsVal.mul, JsVal.min]
  have hsA : specAnomalyScore fraudWitnessA [fraudWitnessA, fraudWitnessB] = 0 := by
    norm_num [specAnomalyScore, calculateAverage, fraudWitnessA, fraudWitnessB,
      baseCustomer, round_eq, min_def]
  have hsB : specAnomalyScore fraudWitnessB [fraudWitnessA, fraudWitnessB] = 0 := by
    norm_num [specAnomalyScore, calculateAverage, fraudWitnessA, fraudWitnessB,
      baseCustomer, round_eq, min_def]
  refine ⟨?_, hA, hB, hsA, ?_⟩
  · norm_num [detectFraudPatterns, List.filter, hA, hB, JsVal.gt]
  · norm_num [specDetectFraudSuspects, List.filter, hsA, hsB]

/-- C7 (counterexample): the `transactionCount / accountAge` division is not
guarded — on `zeroAgeCustomer` (accountAge 0, transactionCount 10) the
`RiskFactors` record holds a non-finite `transactionPattern`. -/
theorem transactionPattern_not_guarded :
    zeroAgeCustomer.accountAge = 0 ∧
    (mkRiskFactors zeroAgeCustomer).transactionPattern.isFinite = false := by
  constructor
  · rfl
  · norm_num [mkRiskFactors, zeroAgeCustomer, baseCustomer, JsVal.div, JsVal.isFinite]

/-- C7 (amended): for every customer with `accountAge = 0` (and a
non-negative fraud-alert count) the `transactionPattern` field of the
`RiskFactors` structure is non-finite — the division is not guarded — but
`calculateRiskScore` is unaffected because `computeWeightedRiskScore` never
reads that field, so the score is still a well-defined integer in `[0, 100]`. -/
theorem riskScore_finite_despite_unguarded_pattern (customer : Customer)
    (h0 : customer.accountAge = 0) (hf : 0 ≤ customer.fraudAlerts) :
    (mkRiskFactors customer).transactionPattern.isFinite = false ∧
    0 ≤ calculateRiskScore customer ∧ calculateRiskScore customer ≤ 100 := by
  refine ⟨?_, (calculateRiskScore_bounds customer hf).1,
    (calculateRiskScore_bounds customer hf).2⟩
  simp only [mkRiskFactors, h0]
  rcases lt_trichotomy customer.transactionCount 0 with h | h | h
  · simp [JsVal.div, JsVal.isFinite, h, not_lt.mpr h.le, h.ne]
  · simp [JsVal.div, JsVal.isFinite, h]
  · simp [JsVal.div, JsVal.isFinite, h, h.ne']

/-- Witness for C7's amended theorem at `zeroAgeCustomer`. -/
theorem riskScore_finite_despite_unguarded_pattern_witness :
    (mkRiskFactors zeroAgeCustomer).transactionPattern.isFinite = false ∧
    0 ≤ calculateRiskScore zeroAgeCustomer ∧
    calculateRiskScore zeroAgeCustomer ≤ 100 :=
  riskScore_finite_despite_unguarded_pattern zeroAgeCustomer rfl
    (by norm_num [zeroAgeCustomer, baseCustomer])

/-- The four first-match cluster filters partition the population: every
customer lands in exactly one bucket (`Basic` is the catch-all). -/
lemma four_filter_partition (customers : List Customer) :
    (customers.filter fun c => decide (premiumCriteria c)).length +
    (customers.filter fun c => decide (¬premiumCriteria c ∧ goldCriteria c)).length +
    (customers.filter fun c =>
      decide (¬premiumCriteria c ∧ ¬goldCriteria c ∧ silverCriteria c)).length +
    (customers.filter fun c =>
      decide (¬premiumCriteria c ∧ ¬goldCriteria c ∧ ¬silverCriteria c)).length =
    customers.length := by
  induction customers with
  | nil => rfl
  | cons c t ih =>
      simp only [List.filter_cons]
      by_cases h1 : premiumCriteria c
      · rw [if_pos (by simp [h1]), if_neg (by simp [h1]), if_neg (by simp [h1]),
          if_neg (by simp [h1])]
        simp only [List.length_cons]
        omega
      · by_cases h2 : goldCriteria c
        · rw [if_neg (by simp [h1]), if_pos (by simp [h1, h2]),
            if_neg (by simp [h1, h2]), if_neg (by simp [h1, h2])]
          simp only [List.length_cons]
          omega
        · by_cases h3 : silverCriteria c
          · rw [if_neg (by simp [h1]), if_neg (by simp [h1, h2]),
              if_pos (by simp [h1, h2, h3]), if_neg (by simp [h1, h2, h3])]
            simp only [List.length_cons]
            omega
          · rw [if_neg (by simp [h1]), if_neg (by simp [h1, h2]),
              if_neg (by simp [h1, h2, h3]), if_pos (by simp [h1, h2, h3])]
            simp only [List.length_cons]
            omega

/-- Dropping empty buckets does not change the sum of `length / N` terms,
since an empty bucket contributes `0 / N = 0`. -/
lemma sum_div_filter (N : ℚ) (l : List (String × List Customer)) :
    ((l.filter fun s => decide (0 < s.2.length)).map
        fun s => (s.2.length : ℚ) / N).sum =
    (l.map fun s => (s.2.length : ℚ) / N).sum := by
  induction l with
  | nil => rfl
  | cons p t ih =>
      rcases Nat.eq_zero_or_pos p.2.length with h0 | hpos
      · simp [List.filter_cons, h0, ih]
      · simp [List.filter_cons, hpos, ih]

/-- C8: for every non-empty customer list the `percentage` fields of the
non-empty buckets returned by `performSegmentAnalysis` sum to exactly 1 (in
exact rational arithmetic): the clusters partition the population, dropped
empty buckets contribute 0, and each percentage is `memberCount / total`. -/
theorem segment_percentages_sum_to_one (isRecent : String → Bool)
    (customers : List Customer) (h : customers ≠ []) :
    ((performSegmentAnalysis isRecent customers).map (fun s => s.percentage)).sum
      = 1 := by
  have hN : ((customers.length : ℚ)) ≠ 0 := by
    have hl : customers.length ≠ 0 := by
      simpa [List.length_eq_zero] using h
    exact_mod_cast hl
  unfold performSegmentAnalysis
  rw [List.map_map]
  show ((clusterCustomers customers).map
      fun s => ((s.2.length : ℚ) / (customers.length : ℚ))).sum = 1
  unfold clusterCustomers
  rw [sum_div_filter]
  simp only [List.map_cons, List.map_nil, List.sum_cons, List.sum_nil, add_zero]
  rw [div_add_div_same, div_add_div_same, div_add_div_same, div_eq_one_iff_eq hN,
    ← add_assoc, ← add_assoc]
  exact_mod_cast four_filter_partition customers

/-- Witness for C8 on the one-customer population. -/
theorem segment_percentages_sum_to_one_witness :
    ((performSegmentAnalysis (fun _ => true) [baseCustomer]).map
        (fun s => s.percentage)).sum = 1 :=
  segment_percentages_sum_to_one (fun _ => true) [baseCustomer] (by simp)

/-- A second pass of the per-record pipeline body recomputes identical
derived fields: the score only reads non-derived fields, which the first
pass left untouched. -/
lemma processCustomer_idem (customer : Customer) :
    processCustomer (processCustomer customer) = processCustomer customer := rfl

/-- C9: engine recomputation is idempotent and deterministic — running
`processNewCustomerData` twice yields the same list as running it once
(the derived fields depend only on the non-derived inputs). -/
theorem processNewCustomerData_idempotent :
    ∀ rawCustomers : List Customer,
      processNewCustomerData (processNewCustomerData rawCustomers) =
        processNewCustomerData rawCustomers := by
  intro rawCustomers
  unfold processNewCustomerData
  rw [List.map_map]
  exact List.map_congr_left fun c _ => processCustomer_idem c

/-- C10: `processNewCustomerData` returns, for each input record, that record
with exactly the three derived fields `riskScore`, `riskCategory`, `segment`
overwritten (the in-place mutation of the source is modelled as this record
update), and every other field — id, name, age, income, creditScore,
accountBalance, transactionCount, avgTransactionAmount, city, state,
joinDate, lastTransactionDate, fraudAlerts, paymentHistory, utilizationRate,
accountAge — unchanged. -/
theorem processNewCustomerData_frame :
    (∀ rawCustomers : List Customer,
        processNewCustomerData rawCustomers = rawCustomers.map fun c =>
          { c with
            riskScore := (calculateRiskScore c : ℚ)
            riskCategory := riskCategoryOf (calculateRiskScore c : ℚ)
            segment := assignCustomerSegment
              { c with
                riskScore := (calculateRiskScore c : ℚ)
                riskCategory := riskCategoryOf (calculateRiskScore c : ℚ) } }) ∧
    (∀ c : Customer,
        (processCustomer c).id = c.id ∧ (processCustomer c).name = c.name ∧
        (processCustomer c).age = c.age ∧ (processCustomer c).income = c.income ∧
        (processCustomer c).creditScore = c.creditScore ∧
        (processCustomer c).accountBalance = c.accountBalance ∧
        (processCustomer c).transactionCount = c.transactionCount ∧
        (processCustomer c).avgTransactionAmount = c.avgTransactionAmount ∧
        (processCustomer c).city = c.city ∧ (processCustomer c).state = c.state ∧
        (processCustomer c).joinDate = c.joinDate ∧
        (processCustomer c).lastTransactionDate = c.lastTransactionDate ∧
        (processCustomer c).fraudAlerts = c.fraudAlerts ∧
        (processCustomer c).paymentHistory = c.paymentHistory ∧
        (processCustomer c).utilizationRate = c.utilizationRate ∧
        (processCustomer c).accountAge = c.accountAge) := by
  constructor
  · intro rawCustomers
    rfl
  · intro c
    exact ⟨rfl, rfl, rfl, rfl, rfl, rfl, rfl, rfl, rfl, rfl, rfl, rfl, rfl, rfl,
      rfl, rfl⟩

end CreditRisk
